import Mathlib

/-!
Verification development for the archipelago_rs client library.

The Rust sources are shallowly embedded:
  * `serde_json::Value` becomes the inductive `Json` (numbers are modelled as
    rationals, which cover every JSON numeral the claims touch);
  * fallible decoding becomes `Except String`;
  * `i64` / `u8` values become `Int` / `Nat` with explicit range checks at the
    decoding boundary;
  * the websocket is an explicit list of inbound frames, and every stateful
    method of `ArchipelagoClient` is state passing on an explicit record;
  * the unbounded `while` loops of the selective-wait operations take explicit
    fuel, `none` meaning that the loop did not finish within the given fuel.
-/

namespace Archipelago

/-- Shallow embedding of `serde_json::Value`. -/
inductive Json where
  | null
  | bool (b : Bool)
  | num (q : Rat)
  | str (s : String)
  | arr (elems : List Json)
  | obj (fields : List (String × Json))

/-- Decoding results, `serde`'s error type collapsed to its message. -/
abbrev Dec (α : Type) := Except String α

/-- Field lookup in a JSON object, first match wins. -/
def getField (fields : List (String × Json)) (name : String) : Option Json :=
  match fields with
  | [] => none
  | (k, v) :: rest => if k = name then some v else getField rest name

/-- A required struct field: `serde` errors out when it is missing. -/
def reqField (fields : List (String × Json)) (name : String) : Dec Json :=
  match getField fields name with
  | some v => .ok v
  | none => .error ("missing field " ++ name)

def asStr : Json → Dec String
  | .str s => .ok s
  | _ => .error "invalid type: expected a string"

def asBool : Json → Dec Bool
  | .bool b => .ok b
  | _ => .error "invalid type: expected a boolean"

def asObj : Json → Dec (List (String × Json))
  | .obj fields => .ok fields
  | _ => .error "invalid type: expected an object"

/-- Decode an `i64`: an integral JSON number within the 64-bit signed range. -/
def asI64 : Json → Dec Int
  | .num q =>
      if q.den = 1 then
        if -(2 ^ 63) ≤ q.num ∧ q.num < 2 ^ 63 then .ok q.num
        else .error "number out of range of i64"
      else .error "invalid type: expected an integer"
  | _ => .error "invalid type: expected an integer"

/-- Decode a `u8`: an integral JSON number within the 8-bit unsigned range. -/
def asU8 : Json → Dec Nat
  | .num q =>
      if q.den = 1 then
        if 0 ≤ q.num ∧ q.num < 256 then .ok q.num.toNat
        else .error "number out of range of u8"
      else .error "invalid type: expected an integer"
  | _ => .error "invalid type: expected an integer"

/-- Decode an `f64`; the embedding keeps JSON numerals as rationals. -/
def asF64 : Json → Dec Rat
  | .num q => .ok q
  | _ => .error "invalid type: expected a number"

/-- Decode a list of elements one by one, failing on the first bad one. -/
def decodeElems (d : Json → Dec α) : List Json → Dec (List α)
  | [] => .ok []
  | x :: rest => do
    let a ← d x
    let as ← decodeElems d rest
    pure (a :: as)

/-- Decode `Vec<T>` given a decoder for `T`. -/
def decodeList (d : Json → Dec α) : Json → Dec (List α)
  | .arr elems => decodeElems d elems
  | _ => .error "invalid type: expected an array"

/-- Decode the entries of a JSON object one by one. -/
def decodeEntries (d : Json → Dec α) :
    List (String × Json) → Dec (List (String × α))
  | [] => .ok []
  | (k, v) :: rest => do
    let a ← d v
    let as ← decodeEntries d rest
    pure ((k, a) :: as)

/-- Decode `HashMap<String, T>` given a decoder for `T`; the embedding keeps
the association list as sent. -/
def decodeStrMap (d : Json → Dec α) : Json → Dec (List (String × α))
  | .obj fields => decodeEntries d fields
  | _ => .error "invalid type: expected a map"

/-- An optional struct field: `serde` turns both a missing field and an
explicit `null` into `None` for fields of type `Option<T>`. -/
def decodeOptField (fields : List (String × Json)) (name : String)
    (d : Json → Dec α) : Dec (Option α) :=
  match getField fields name with
  | none => .ok none
  | some .null => .ok none
  | some v => (d v).map some

/-- A field with a `#[serde(default)]`-style fallback used when it is missing
(but not when it is present with an incompatible value). -/
def decodeDefaultField (fields : List (String × Json)) (name : String)
    (d : Json → Dec α) (dflt : α) : Dec α :=
  match getField fields name with
  | none => .ok dflt
  | some v => d v

/-! ## Protocol data model (src/src/protocol.rs) -/

/-- `protocol.rs` `NetworkVersion`; the `class` field has serde default
`"Version"`. -/
structure NetworkVersion where
  major : Int
  minor : Int
  build : Int
  «class» : String

/-- `protocol.rs` `network_version()`. -/
def network_version : NetworkVersion :=
  { major := 0, minor := 6, build := 0, «class» := "Version" }

/-- `protocol.rs` `Permission` (serde_repr over u16). -/
inductive Permission where
  | Disabled
  | Enabled
  | Goal
  | Auto
  | AutoEnabled

structure NetworkPlayer where
  team : Int
  slot : Int
  «alias» : String
  name : String

/-- `protocol.rs` `NetworkItemFlags`: a `u8` bit set, any bits retained. -/
structure NetworkItemFlags where
  bits : Nat

structure NetworkItem where
  item : Int
  location : Int
  player : Int
  flags : NetworkItemFlags

inductive SlotType where
  | Spectator
  | Player
  | Group

structure NetworkSlot where
  name : String
  game : String
  type : SlotType
  group_members : List Int

structure RoomInfo where
  version : NetworkVersion
  generator_version : NetworkVersion
  tags : List String
  password_required : Bool
  permissions : List (String × Permission)
  hint_cost : Int
  location_check_points : Int
  games : List String
  datapackage_versions : List (String × Int)
  datapackage_checksums : List (String × String)
  seed_name : String
  time : Rat

structure ConnectionRefused where
  errors : List String

/-- `protocol.rs` `Connected<S>`; the opaque `slot_data` payload is kept as raw
JSON.  `slot_info` is keyed by `i64` rendered through `DisplayFromStr`. -/
structure Connected where
  team : Int
  slot : Int
  players : List NetworkPlayer
  missing_locations : List Int
  checked_locations : List Int
  slot_data : Json
  slot_info : List (Int × NetworkSlot)
  hint_points : Int

structure ReceivedItems where
  index : Int
  items : List NetworkItem

structure LocationInfo where
  locations : List NetworkItem

structure RoomUpdate where
  version : Option NetworkVersion
  tags : Option (List String)
  password_required : Option Bool
  permissions : Option (List (String × Permission))
  hint_cost : Option Int
  location_check_points : Option Int
  games : Option (List String)
  datapackage_versions : Option (List (String × Int))
  datapackage_checksums : Option (List (String × String))
  seed_name : Option String
  time : Option Rat
  hint_points : Option Int
  players : Option (List NetworkPlayer)
  checked_locations : Option (List Int)
  missing_locations : Option (List Int)

structure Print where
  text : String

inductive JSONColor where
  | Bold | Underline
  | Black | Red | Green | Yellow | Blue | Magenta | Cyan | White
  | BlackBg | RedBg | GreenBg | YellowBg | BlueBg | MagentaBg | CyanBg | WhiteBg

/-- `protocol.rs` `JSONMessagePart`: internally tagged on `type` with
snake_case variant names and an untagged plain-text fallback. -/
inductive JSONMessagePart where
  | PlayerId (text : String) (player : Int)
  | PlayerName (text : String)
  | ItemId (text : String) (flags : NetworkItemFlags) (player : Int)
  | ItemName (text : String) (flags : NetworkItemFlags) (player : Int)
  | LocationId (text : String) (player : Int)
  | LocationName (text : String) (player : Int)
  | EntranceName (text : String)
  | Color (text : String) (color : JSONColor)
  | Text (text : String)

/-- `protocol.rs` `PrintJSON`: internally tagged on `type`, with two untagged
fallback variants `Unknown` and `Text` declared at the end. -/
inductive PrintJSON where
  | ItemSend (data : List JSONMessagePart) (receiving : Int) (item : NetworkItem)
  | ItemCheat (data : List JSONMessagePart) (receiving : Int) (item : NetworkItem) (team : Int)
  | Hint (data : List JSONMessagePart) (receiving : Int) (item : NetworkItem) (found : Bool)
  | Join (data : List JSONMessagePart) (team : Int) (slot : Int) (tags : List String)
  | Part (data : List JSONMessagePart) (team : Int) (slot : Int)
  | Chat (data : List JSONMessagePart) (team : Option Int) (slot : Option Int)
      (message : Option String)
  | ServerChat (data : List JSONMessagePart) (message : String)
  | Tutorial (data : List JSONMessagePart)
  | TagsChanged (data : List JSONMessagePart) (team : Int) (slot : Int) (tags : List String)
  | CommandResult (data : List JSONMessagePart)
  | AdminCommandResult (data : List JSONMessagePart)
  | Goal (data : List JSONMessagePart) (team : Int) (slot : Int)
  | Release (data : List JSONMessagePart) (team : Int) (slot : Int)
  | Collect (data : List JSONMessagePart) (team : Int) (slot : Int)
  | Countdown (data : List JSONMessagePart) (countdown : Int)
  | Unknown (data : List JSONMessagePart)
  | Text (data : List JSONMessagePart)

/-- `protocol.rs` `GameData`.  The two cache fields and their accessors are
not present under src/ (only their caller in rich_message.rs is); they are
modelled from the spec, see `GameData.item_id_to_name` below. -/
structure GameData where
  item_name_to_id : List (String × Int)
  location_name_to_id : List (String × Int)
  checksum : String
  item_id_to_name_cache : Option (List (Int × String)) := none
  location_id_to_name_cache : Option (List (Int × String)) := none

structure DataPackageObject where
  games : List (String × GameData)

structure DataPackage where
  data : DataPackageObject

/-- `protocol.rs` `Bounced`: the generic envelope, all fields optional. -/
structure Bounced where
  games : Option (List String)
  slots : Option (List Int)
  tags : Option (List String)
  data : Option Json

structure InvalidPacket where
  type : String
  original_cmd : Option String
  text : String

structure Retrieved where
  keys : Json

structure SetReply where
  key : String
  value : Json
  original_value : Option Json

/-- `protocol.rs` `ServerMessage`: internally tagged on `cmd`, no untagged
fallback variant. -/
inductive ServerMessage where
  | RoomInfo (room : RoomInfo)
  | ConnectionRefused (payload : ConnectionRefused)
  | Connected (payload : Connected)
  | ReceivedItems (payload : ReceivedItems)
  | LocationInfo (payload : LocationInfo)
  | RoomUpdate (payload : RoomUpdate)
  | Print (payload : Print)
  | PrintJSON (payload : PrintJSON)
  | DataPackage (payload : DataPackage)
  | Bounced (payload : Bounced)
  | InvalidPacket (payload : InvalidPacket)
  | Retrieved (payload : Retrieved)
  | SetReply (payload : SetReply)

/-! ## Decoding (the serde `Deserialize` derivations of src/src/protocol.rs)

Each struct decoder receives the field list of the surrounding JSON object,
mirroring serde's internally tagged representation where a variant's payload
is read from the same object that carries the tag. -/

def decodeNetworkVersion (j : Json) : Dec NetworkVersion := do
  let fields ← asObj j
  let major ← asI64 (← reqField fields "major")
  let minor ← asI64 (← reqField fields "minor")
  let build ← asI64 (← reqField fields "build")
  let cls ← decodeDefaultField fields "class" asStr "Version"
  pure { major, minor, build, «class» := cls }

def decodePermission (j : Json) : Dec Permission := do
  match ← asI64 j with
  | 0 => pure .Disabled
  | 1 => pure .Enabled
  | 2 => pure .Goal
  | 6 => pure .Auto
  | 7 => pure .AutoEnabled
  | _ => .error "invalid value for enum Permission"

def decodeNetworkPlayer (j : Json) : Dec NetworkPlayer := do
  let fields ← asObj j
  let team ← asI64 (← reqField fields "team")
  let slot ← asI64 (← reqField fields "slot")
  let a ← asStr (← reqField fields "alias")
  let name ← asStr (← reqField fields "name")
  pure { team, slot, «alias» := a, name }

def decodeNetworkItemFlags (j : Json) : Dec NetworkItemFlags := do
  let bits ← asU8 j
  pure { bits }

def decodeNetworkItem (j : Json) : Dec NetworkItem := do
  let fields ← asObj j
  let item ← asI64 (← reqField fields "item")
  let location ← asI64 (← reqField fields "location")
  let player ← asI64 (← reqField fields "player")
  let flags ← decodeNetworkItemFlags (← reqField fields "flags")
  pure { item, location, player, flags }

def decodeSlotType (j : Json) : Dec SlotType := do
  match ← asI64 j with
  | 0 => pure .Spectator
  | 1 => pure .Player
  | 2 => pure .Group
  | _ => .error "invalid value for enum SlotType"

def decodeNetworkSlot (j : Json) : Dec NetworkSlot := do
  let fields ← asObj j
  let name ← asStr (← reqField fields "name")
  let game ← asStr (← reqField fields "game")
  let ty ← decodeSlotType (← reqField fields "type")
  let group_members ← decodeList asI64 (← reqField fields "group_members")
  pure { name, game, type := ty, group_members }

def decodeRoomInfo (fields : List (String × Json)) : Dec RoomInfo := do
  let version ← decodeNetworkVersion (← reqField fields "version")
  let generator_version ← decodeNetworkVersion (← reqField fields "generator_version")
  let tags ← decodeList asStr (← reqField fields "tags")
  let password_required ← asBool (← reqField fields "password")
  let permissions ← decodeStrMap decodePermission (← reqField fields "permissions")
  let hint_cost ← asI64 (← reqField fields "hint_cost")
  let location_check_points ← asI64 (← reqField fields "location_check_points")
  let games ← decodeList asStr (← reqField fields "games")
  let datapackage_versions ← decodeDefaultField fields "datapackage_versions"
      (decodeStrMap asI64) []
  let datapackage_checksums ← decodeDefaultField fields "datapackage_checksums"
      (decodeStrMap asStr) []
  let seed_name ← asStr (← reqField fields "seed_name")
  let time ← asF64 (← reqField fields "time")
  pure { version, generator_version, tags, password_required, permissions,
         hint_cost, location_check_points, games, datapackage_versions,
         datapackage_checksums, seed_name, time }

def decodeConnectionRefused (fields : List (String × Json)) : Dec ConnectionRefused := do
  let errors ← decodeDefaultField fields "errors" (decodeList asStr) []
  pure { errors }

/-- Decode `slot_info`, a map keyed by `i64` through `DisplayFromStr`. -/
def slotInfoKeys : List (String × NetworkSlot) → Dec (List (Int × NetworkSlot))
  | [] => .ok []
  | (k, v) :: rest =>
    match k.toInt? with
    | some key => (slotInfoKeys rest).map (fun parsed => (key, v) :: parsed)
    | none => .error "invalid slot_info key"

def decodeSlotInfo (j : Json) : Dec (List (Int × NetworkSlot)) := do
  let entries ← decodeStrMap decodeNetworkSlot j
  slotInfoKeys entries

def decodeConnected (fields : List (String × Json)) : Dec Connected := do
  let team ← asI64 (← reqField fields "team")
  let slot ← asI64 (← reqField fields "slot")
  let players ← decodeList decodeNetworkPlayer (← reqField fields "players")
  let missing_locations ← decodeList asI64 (← reqField fields "missing_locations")
  let checked_locations ← decodeList asI64 (← reqField fields "checked_locations")
  let slot_data ← reqField fields "slot_data"
  let slot_info ← decodeSlotInfo (← reqField fields "slot_info")
  let hint_points ← asI64 (← reqField fields "hint_points")
  pure { team, slot, players, missing_locations, checked_locations, slot_data,
         slot_info, hint_points }

def decodeReceivedItems (fields : List (String × Json)) : Dec ReceivedItems := do
  let index ← asI64 (← reqField fields "index")
  let items ← decodeList decodeNetworkItem (← reqField fields "items")
  pure { index, items }

def decodeLocationInfo (fields : List (String × Json)) : Dec LocationInfo := do
  let locations ← decodeList decodeNetworkItem (← reqField fields "locations")
  pure { locations }

def decodeRoomUpdate (fields : List (String × Json)) : Dec RoomUpdate := do
  let version ← decodeOptField fields "version" decodeNetworkVersion
  let tags ← decodeOptField fields "tags" (decodeList asStr)
  let password_required ← decodeOptField fields "password" asBool
  let permissions ← decodeOptField fields "permissions" (decodeStrMap decodePermission)
  let hint_cost ← decodeOptField fields "hint_cost" asI64
  let location_check_points ← decodeOptField fields "location_check_points" asI64
  let games ← decodeOptField fields "games" (decodeList asStr)
  let datapackage_versions ← decodeOptField fields "datapackage_versions"
      (decodeStrMap asI64)
  let datapackage_checksums ← decodeOptField fields "datapackage_checksums"
      (decodeStrMap asStr)
  let seed_name ← decodeOptField fields "seed_name" asStr
  let time ← decodeOptField fields "time" asF64
  let hint_points ← decodeOptField fields "hint_points" asI64
  let players ← decodeOptField fields "players" (decodeList decodeNetworkPlayer)
  let checked_locations ← decodeOptField fields "checked_locations" (decodeList asI64)
  let missing_locations ← decodeOptField fields "missing_locations" (decodeList asI64)
  pure { version, tags, password_required, permissions, hint_cost,
         location_check_points, games, datapackage_versions,
         datapackage_checksums, seed_name, time, hint_points, players,
         checked_locations, missing_locations }

def decodePrint (fields : List (String × Json)) : Dec Print := do
  let text ← asStr (← reqField fields "text")
  pure { text }

def decodeJSONColor (j : Json) : Dec JSONColor := do
  match ← asStr j with
  | "bold" => pure .Bold
  | "underline" => pure .Underline
  | "black" => pure .Black
  | "red" => pure .Red
  | "green" => pure .Green
  | "yellow" => pure .Yellow
  | "blue" => pure .Blue
  | "magenta" => pure .Magenta
  | "cyan" => pure .Cyan
  | "white" => pure .White
  | "black_bg" => pure .BlackBg
  | "red_bg" => pure .RedBg
  | "green_bg" => pure .GreenBg
  | "yellow_bg" => pure .YellowBg
  | "blue_bg" => pure .BlueBg
  | "magenta_bg" => pure .MagentaBg
  | "cyan_bg" => pure .CyanBg
  | "white_bg" => pure .WhiteBg
  | _ => .error "unknown variant of enum JSONColor"

/-- The recognized values of the `type` discriminator of `JSONMessagePart`
(snake_case renaming of the tagged variants). -/
def jsonMessagePartTypes : List String :=
  ["player_id", "player_name", "item_id", "item_name", "location_id",
   "location_name", "entrance_name", "color"]

/-- The untagged fallback of `JSONMessagePart`: serde tries the `Text` variant
when the `type` tag is missing or matches no tagged variant. -/
def jsonMessagePartFallback (fields : List (String × Json)) : Dec JSONMessagePart :=
  match getField fields "text" with
  | some (.str t) => .ok (.Text t)
  | _ => .error "data did not match any variant of enum JSONMessagePart"

def decodeJSONMessagePartVariant (tag : String) (fields : List (String × Json)) :
    Dec JSONMessagePart :=
  if tag = "player_id" then do
    let text ← asStr (← reqField fields "text")
    let player ← asI64 (← reqField fields "player")
    pure (.PlayerId text player)
  else if tag = "player_name" then do
    let text ← asStr (← reqField fields "text")
    pure (.PlayerName text)
  else if tag = "item_id" then do
    let text ← asStr (← reqField fields "text")
    let flags ← decodeNetworkItemFlags (← reqField fields "flags")
    let player ← asI64 (← reqField fields "player")
    pure (.ItemId text flags player)
  else if tag = "item_name" then do
    let text ← asStr (← reqField fields "text")
    let flags ← decodeNetworkItemFlags (← reqField fields "flags")
    let player ← asI64 (← reqField fields "player")
    pure (.ItemName text flags player)
  else if tag = "location_id" then do
    let text ← asStr (← reqField fields "text")
    let player ← asI64 (← reqField fields "player")
    pure (.LocationId text player)
  else if tag = "location_name" then do
    let text ← asStr (← reqField fields "text")
    let player ← asI64 (← reqField fields "player")
    pure (.LocationName text player)
  else if tag = "entrance_name" then do
    let text ← asStr (← reqField fields "text")
    pure (.EntranceName text)
  else if tag = "color" then do
    let text ← asStr (← reqField fields "text")
    let color ← decodeJSONColor (← reqField fields "color")
    pure (.Color text color)
  else
    jsonMessagePartFallback fields

def decodeJSONMessagePart (j : Json) : Dec JSONMessagePart := do
  let fields ← asObj j
  match getField fields "type" with
  | some (.str tag) => decodeJSONMessagePartVariant tag fields
  | _ => jsonMessagePartFallback fields

/-- The recognized values of the `type` discriminator of `PrintJSON`. -/
def printJSONTypes : List String :=
  ["ItemSend", "ItemCheat", "Hint", "Join", "Part", "Chat", "ServerChat",
   "Tutorial", "TagsChanged", "CommandResult", "AdminCommandResult", "Goal",
   "Release", "Collect", "Countdown"]

/-- The untagged fallback of `PrintJSON`: serde tries `Unknown` and then
`Text` (both of which only require `data`) when the `type` tag is missing or
matches no tagged variant. -/
def printJSONFallback (fields : List (String × Json)) : Dec PrintJSON :=
  match reqField fields "data" with
  | .ok data =>
    match decodeList decodeJSONMessagePart data with
    | .ok parts => .ok (.Unknown parts)
    | .error _ => .error "data did not match any variant of enum PrintJSON"
  | .error _ => .error "data did not match any variant of enum PrintJSON"

def decodePrintJSONVariant (tag : String) (fields : List (String × Json)) :
    Dec PrintJSON :=
  if tag = "ItemSend" then do
    let data ← decodeList decodeJSONMessagePart (← reqField fields "data")
    let receiving ← asI64 (← reqField fields "receiving")
    let item ← decodeNetworkItem (← reqField fields "item")
    pure (.ItemSend data receiving item)
  else if tag = "ItemCheat" then do
    let data ← decodeList decodeJSONMessagePart (← reqField fields "data")
    let receiving ← asI64 (← reqField fields "receiving")
    let item ← decodeNetworkItem (← reqField fields "item")
    let team ← asI64 (← reqField fields "team")
    pure (.ItemCheat data receiving item team)
  else if tag = "Hint" then do
    let data ← decodeList decodeJSONMessagePart (← reqField fields "data")
    let receiving ← asI64 (← reqField fields "receiving")
    let item ← decodeNetworkItem (← reqField fields "item")
    let found ← asBool (← reqField fields "found")
    pure (.Hint data receiving item found)
  else if tag = "Join" then do
    let data ← decodeList decodeJSONMessagePart (← reqField fields "data")
    let team ← asI64 (← reqField fields "team")
    let slot ← asI64 (← reqField fields "slot")
    let tags ← decodeList asStr (← reqField fields "tags")
    pure (.Join data team slot tags)
  else if tag = "Part" then do
    let data ← decodeList decodeJSONMessagePart (← reqField fields "data")
    let team ← asI64 (← reqField fields "team")
    let slot ← asI64 (← reqField fields "slot")
    pure (.Part data team slot)
  else if tag = "Chat" then do
    let data ← decodeList decodeJSONMessagePart (← reqField fields "data")
    let team ← decodeOptField fields "team" asI64
    let slot ← decodeOptField fields "slot" asI64
    let message ← decodeOptField fields "message" asStr
    pure (.Chat data team slot message)
  else if tag = "ServerChat" then do
    let data ← decodeList decodeJSONMessagePart (← reqField fields "data")
    let message ← asStr (← reqField fields "message")
    pure (.ServerChat data message)
  else if tag = "Tutorial" then do
    let data ← decodeList decodeJSONMessagePart (← reqField fields "data")
    pure (.Tutorial data)
  else if tag = "TagsChanged" then do
    let data ← decodeList decodeJSONMessagePart (← reqField fields "data")
    let team ← asI64 (← reqField fields "team")
    let slot ← asI64 (← reqField fields "slot")
    let tags ← decodeList asStr (← reqField fields "tags")
    pure (.TagsChanged data team slot tags)
  else if tag = "CommandResult" then do
    let data ← decodeList decodeJSONMessagePart (← reqField fields "data")
    pure (.CommandResult data)
  else if tag = "AdminCommandResult" then do
    let data ← decodeList decodeJSONMessagePart (← reqField fields "data")
    pure (.AdminCommandResult data)
  else if tag = "Goal" then do
    let data ← decodeList decodeJSONMessagePart (← reqField fields "data")
    let team ← asI64 (← reqField fields "team")
    let slot ← asI64 (← reqField fields "slot")
    pure (.Goal data team slot)
  else if tag = "Release" then do
    let data ← decodeList decodeJSONMessagePart (← reqField fields "data")
    let team ← asI64 (← reqField fields "team")
    let slot ← asI64 (← reqField fields "slot")
    pure (.Release data team slot)
  else if tag = "Collect" then do
    let data ← decodeList decodeJSONMessagePart (← reqField fields "data")
    let team ← asI64 (← reqField fields "team")
    let slot ← asI64 (← reqField fields "slot")
    pure (.Collect data team slot)
  else if tag = "Countdown" then do
    let data ← decodeList decodeJSONMessagePart (← reqField fields "data")
    let countdown ← asI64 (← reqField fields "countdown")
    pure (.Countdown data countdown)
  else
    printJSONFallback fields

def decodePrintJSON (j : Json) : Dec PrintJSON := do
  let fields ← asObj j
  match getField fields "type" with
  | some (.str tag) => decodePrintJSONVariant tag fields
  | _ => printJSONFallback fields

def decodeGameData (j : Json) : Dec GameData := do
  let fields ← asObj j
  let item_name_to_id ← decodeStrMap asI64 (← reqField fields "item_name_to_id")
  let location_name_to_id ← decodeStrMap asI64 (← reqField fields "location_name_to_id")
  let checksum ← asStr (← reqField fields "checksum")
  pure { item_name_to_id, location_name_to_id, checksum }

def decodeDataPackageObject (j : Json) : Dec DataPackageObject := do
  let fields ← asObj j
  let games ← decodeStrMap decodeGameData (← reqField fields "games")
  pure { games }

def decodeDataPackage (fields : List (String × Json)) : Dec DataPackage := do
  let data ← decodeDataPackageObject (← reqField fields "data")
  pure { data }

def decodeBounced (fields : List (String × Json)) : Dec Bounced := do
  let games ← decodeOptField fields "games" (decodeList asStr)
  let slots ← decodeOptField fields "slots" (decodeList asI64)
  let tags ← decodeOptField fields "tags" (decodeList asStr)
  let data ← decodeOptField fields "data" .ok
  pure { games, slots, tags, data }

def decodeInvalidPacket (fields : List (String × Json)) : Dec InvalidPacket := do
  let ty ← asStr (← reqField fields "type")
  let original_cmd ← decodeOptField fields "original_cmd" asStr
  let text ← asStr (← reqField fields "text")
  pure { type := ty, original_cmd, text }

def decodeRetrieved (fields : List (String × Json)) : Dec Retrieved := do
  let keys ← reqField fields "keys"
  pure { keys }

def decodeSetReply (fields : List (String × Json)) : Dec SetReply := do
  let key ← asStr (← reqField fields "key")
  let value ← reqField fields "value"
  let original_value ← decodeOptField fields "original_value" .ok
  pure { key, value, original_value }

/-- The recognized values of the `cmd` discriminator of `ServerMessage`. -/
def serverMessageCmds : List String :=
  ["RoomInfo", "ConnectionRefused", "Connected", "ReceivedItems",
   "LocationInfo", "RoomUpdate", "Print", "PrintJSON", "DataPackage",
   "Bounced", "InvalidPacket", "Retrieved", "SetReply"]

def decodeServerMessageVariant (cmd : String) (fields : List (String × Json)) :
    Dec ServerMessage :=
  if cmd = "RoomInfo" then (decodeRoomInfo fields).map .RoomInfo
  else if cmd = "ConnectionRefused" then
    (decodeConnectionRefused fields).map .ConnectionRefused
  else if cmd = "Connected" then (decodeConnected fields).map .Connected
  else if cmd = "ReceivedItems" then (decodeReceivedItems fields).map .ReceivedItems
  else if cmd = "LocationInfo" then (decodeLocationInfo fields).map .LocationInfo
  else if cmd = "RoomUpdate" then (decodeRoomUpdate fields).map .RoomUpdate
  else if cmd = "Print" then (decodePrint fields).map .Print
  else if cmd = "PrintJSON" then (decodePrintJSON (.obj fields)).map .PrintJSON
  else if cmd = "DataPackage" then (decodeDataPackage fields).map .DataPackage
  else if cmd = "Bounced" then (decodeBounced fields).map .Bounced
  else if cmd = "InvalidPacket" then (decodeInvalidPacket fields).map .InvalidPacket
  else if cmd = "Retrieved" then (decodeRetrieved fields).map .Retrieved
  else if cmd = "SetReply" then (decodeSetReply fields).map .SetReply
  else .error ("unknown variant " ++ cmd ++ " of enum ServerMessage")

def decodeServerMessage (j : Json) : Dec ServerMessage :=
  match j with
  | .obj fields =>
    match getField fields "cmd" with
    | some (.str cmd) => decodeServerMessageVariant cmd fields
    | some _ => .error "invalid type for tag cmd"
    | none => .error "missing field cmd"
  | _ => .error "invalid type: expected an object"

/-- `client.rs` `MaybeArray`: an untagged union that first tries a bare
single message and then an array of messages, normalized to a list. -/
def decodeMaybeArray (j : Json) : Dec (List ServerMessage) :=
  match decodeServerMessage j with
  | .ok m => .ok [m]
  | .error _ =>
    match j with
    | .arr elems => decodeElems decodeServerMessage elems
    | _ => .error "data did not match any variant of untagged enum MaybeArray"

/-! ## Client messages (the shapes constructed in src/src/client.rs)

The repository carries several historical schemas for the client alphabet;
the fields below follow the constructor calls in client.rs, which is the
file the session claims are about. -/

inductive ClientStatus where
  | ClientUnknown
  | ClientReady
  | ClientPlaying
  | ClientGoal

structure Connect where
  game : String
  name : String
  uuid : String
  password : Option String
  version : NetworkVersion
  items_handling : Option Int
  tags : List String
  request_slot_data : Bool

structure LocationChecks where
  locations : List Int

structure LocationScouts where
  locations : List Int
  create_as_hint : Int

structure StatusUpdate where
  status : ClientStatus

structure Say where
  text : String

structure GetDataPackage where
  games : Option (List String)

structure Bounce where
  games : Option (List String)
  slots : Option (List String)
  tags : Option (List String)
  data : Json

structure Get where
  keys : List String

inductive DataStorageOperation where
  | Replace (v : Json)
  | Default
  | Add (v : Json)
  | Mul (v : Json)
  | Pow (v : Json)
  | Mod (v : Json)
  | Floor
  | Ceil
  | Max (v : Json)
  | Min (v : Json)
  | And (v : Json)
  | Or (v : Json)
  | Xor (v : Json)
  | LeftShift (v : Json)
  | RightShift (v : Json)
  | Remove (v : Json)
  | Pop (v : Json)
  | Update (v : Json)

structure Set where
  key : String
  default : Json
  want_reply : Bool
  operations : List DataStorageOperation

structure SetNotify where
  keys : List String

inductive ClientMessage where
  | Connect (payload : Connect)
  | Sync
  | LocationChecks (payload : LocationChecks)
  | LocationScouts (payload : LocationScouts)
  | StatusUpdate (payload : StatusUpdate)
  | Say (payload : Say)
  | GetDataPackage (payload : GetDataPackage)
  | Bounce (payload : Bounce)
  | Get (payload : Get)
  | Set (payload : Set)
  | SetNotify (payload : SetNotify)

/-! ## Session layer (src/src/client.rs) -/

/-- `tungstenite::Error`, distinguishing only what the code inspects: the
TLS handshake failure versus every other error variant. -/
inductive TungsteniteError where
  | Tls (msg : String)
  | other (kind : String) (msg : String)

/-- An inbound websocket frame.  A text frame is represented by its JSON
payload: the raw-text-to-JSON parse of serde_json is treated as part of the
transport. -/
inductive Frame where
  | Text (payload : Json)
  | Binary (len : Nat)
  | Ping
  | Pong
  | Close

/-- The inbound half of the websocket: the items its stream will yield, in
order.  The list ending models the stream being exhausted. -/
abbrev WsStream := List (Except TungsteniteError Frame)

/-- `client.rs` `ArchipelagoError`. -/
inductive ArchipelagoError where
  | IllegalResponse (received : ServerMessage) (expected : String)
  | ConnectionClosed
  | FailedSerialize (msg : String)
  | NonTextWebsocketResult (frame : Frame)
  | NetworkError (err : TungsteniteError)

/-- `Vec::pop`: removes and returns the last element. -/
def vecPop (l : List α) : Option α × List α :=
  (l.getLast?, l.dropLast)

/-- `Vec::push`: appends at the end. -/
def vecPush (l : List α) (x : α) : List α :=
  l ++ [x]

/-- `client.rs` `recv_messages`: reads one item from the stream.  Returns the
remaining stream alongside the Rust function's `Option<Result<..>>`: `none`
when the stream is exhausted or the frame was a ping or pong. -/
def recv_messages (ws : WsStream) :
    Option (Except ArchipelagoError (List ServerMessage)) × WsStream :=
  match ws with
  | [] => (none, [])
  | .ok (.Text payload) :: rest =>
      (some ((decodeMaybeArray payload).mapError .FailedSerialize), rest)
  | .ok .Close :: rest => (some (.error .ConnectionClosed), rest)
  | .ok .Ping :: rest => (none, rest)
  | .ok .Pong :: rest => (none, rest)
  | .ok frame :: rest => (some (.error (.NonTextWebsocketResult frame)), rest)
  | .error e :: rest => (some (.error (.NetworkError e)), rest)

/-- `client.rs` `ArchipelagoClient`.  `sent` logs the outbound messages (the
write half of the socket, which no claim inspects further). -/
structure ArchipelagoClient where
  ws : WsStream
  room_info : RoomInfo
  message_buffer : List ServerMessage
  data_package : Option DataPackageObject
  sent : List ClientMessage

/-- `client.rs` `ArchipelagoClient::send`.  Serialization of the message
list always succeeds in the model, and outbound transport errors are not
modelled, so the `Result` disappears. -/
def ArchipelagoClient.send (c : ArchipelagoClient) (message : ClientMessage) :
    ArchipelagoClient :=
  { c with sent := c.sent ++ [message] }

/-- `client.rs` `ArchipelagoClient::recv`. -/
def ArchipelagoClient.recv (c : ArchipelagoClient) :
    Except ArchipelagoError (Option ServerMessage × ArchipelagoClient) :=
  match vecPop c.message_buffer with
  | (some message, buffer') =>
      .ok (some message, { c with message_buffer := buffer' })
  | (none, _) =>
    match recv_messages c.ws with
    | (some (.error e), _) => .error e
    | (some (.ok msgs), ws') =>
        let (first, buffer') := vecPop msgs.reverse
        .ok (first, { c with ws := ws', message_buffer := buffer' })
    | (none, ws') => .ok (none, { c with ws := ws' })

/-- The body of `client.rs` `ArchipelagoClient::new` after the websocket is
connected (lines 60-81): read the first batch, demand that its first message
is `RoomInfo`, and keep the remainder of the batch as the initial buffer. -/
def ArchipelagoClient.newFromWs (ws : WsStream) :
    Except ArchipelagoError ArchipelagoClient :=
  match recv_messages ws with
  | (none, _) => .error .ConnectionClosed
  | (some (.error e), _) => .error e
  | (some (.ok response), ws') =>
    match response with
    | .RoomInfo room :: rest =>
        .ok { ws := ws', room_info := room, message_buffer := rest,
              data_package := none, sent := [] }
    | received :: _ => .error (.IllegalResponse received "Expected RoomInfo")
    | [] => .error .ConnectionClosed

/-- The transport half of `client.rs` `ArchipelagoClient::new` (lines 44-58):
try `wss://`, downgrade to `ws://` only when the TLS handshake fails.  `net`
abstracts `connect_async`; the second component records the attempted URLs. -/
def transportHandshake (net : String → Except TungsteniteError WsStream)
    (url : String) : Except TungsteniteError WsStream × List String :=
  match net ("wss://" ++ url) with
  | .ok ws => (.ok ws, ["wss://" ++ url])
  | .error (.Tls _) =>
      (net ("ws://" ++ url), ["wss://" ++ url, "ws://" ++ url])
  | .error e => (.error e, ["wss://" ++ url])

/-- `client.rs` `ArchipelagoClient::new`: transport handshake with TLS
downgrade, then the RoomInfo exchange. -/
def ArchipelagoClient.new (net : String → Except TungsteniteError WsStream)
    (url : String) : Except ArchipelagoError ArchipelagoClient :=
  match (transportHandshake net url).1 with
  | .error e => .error (.NetworkError e)
  | .ok ws => ArchipelagoClient.newFromWs ws

/-- `client.rs` `ArchipelagoClient::connect`: send a `Connect` request and
read a single reply, which must be `Connected`. -/
def ArchipelagoClient.connect (c : ArchipelagoClient) (game name : String)
    (password : Option String) (items_handling : Option Int)
    (tags : List String) :
    Except ArchipelagoError (Connected × ArchipelagoClient) :=
  let c := c.send (.Connect
    { game, name, uuid := "", password, version := network_version,
      items_handling, tags, request_slot_data := true })
  match c.recv with
  | .error e => .error e
  | .ok (none, _) => .error .ConnectionClosed
  | .ok (some (.Connected connected), c') => .ok (connected, c')
  | .ok (some received, _) => .error (.IllegalResponse received "Connected")

/-- The receive loop of `client.rs` `ArchipelagoClient::sync`, with fuel:
`none` means the loop was still running when the fuel ran out. -/
def ArchipelagoClient.syncLoop :
    Nat → ArchipelagoClient →
    Option (Except ArchipelagoError (ReceivedItems × ArchipelagoClient))
  | 0, _ => none
  | fuel + 1, c =>
    match c.recv with
    | .error e => some (.error e)
    | .ok (none, _) => some (.error .ConnectionClosed)
    | .ok (some (.ReceivedItems items), c') => some (.ok (items, c'))
    | .ok (some resp, c') =>
        ArchipelagoClient.syncLoop fuel
          { c' with message_buffer := vecPush c'.message_buffer resp }

/-- `client.rs` `ArchipelagoClient::sync`. -/
def ArchipelagoClient.sync (c : ArchipelagoClient) (fuel : Nat) :
    Option (Except ArchipelagoError (ReceivedItems × ArchipelagoClient)) :=
  ArchipelagoClient.syncLoop fuel (c.send .Sync)

/-- The receive loop of `client.rs` `ArchipelagoClient::location_scouts`. -/
def ArchipelagoClient.locationScoutsLoop :
    Nat → ArchipelagoClient →
    Option (Except ArchipelagoError (LocationInfo × ArchipelagoClient))
  | 0, _ => none
  | fuel + 1, c =>
    match c.recv with
    | .error e => some (.error e)
    | .ok (none, _) => some (.error .ConnectionClosed)
    | .ok (some (.LocationInfo items), c') => some (.ok (items, c'))
    | .ok (some resp, c') =>
        ArchipelagoClient.locationScoutsLoop fuel
          { c' with message_buffer := vecPush c'.message_buffer resp }

/-- `client.rs` `ArchipelagoClient::location_scouts`. -/
def ArchipelagoClient.location_scouts (c : ArchipelagoClient)
    (locations : List Int) (create_as_hint : Int) (fuel : Nat) :
    Option (Except ArchipelagoError (LocationInfo × ArchipelagoClient)) :=
  ArchipelagoClient.locationScoutsLoop fuel
    (c.send (.LocationScouts { locations, create_as_hint }))

/-- The receive loop of `client.rs` `ArchipelagoClient::get`. -/
def ArchipelagoClient.getLoop :
    Nat → ArchipelagoClient →
    Option (Except ArchipelagoError (Retrieved × ArchipelagoClient))
  | 0, _ => none
  | fuel + 1, c =>
    match c.recv with
    | .error e => some (.error e)
    | .ok (none, _) => some (.error .ConnectionClosed)
    | .ok (some (.Retrieved items), c') => some (.ok (items, c'))
    | .ok (some resp, c') =>
        ArchipelagoClient.getLoop fuel
          { c' with message_buffer := vecPush c'.message_buffer resp }

/-- `client.rs` `ArchipelagoClient::get`. -/
def ArchipelagoClient.get (c : ArchipelagoClient) (keys : List String)
    (fuel : Nat) :
    Option (Except ArchipelagoError (Retrieved × ArchipelagoClient)) :=
  ArchipelagoClient.getLoop fuel (c.send (.Get { keys }))

/-- The receive loop of `client.rs` `ArchipelagoClient::set`. -/
def ArchipelagoClient.setLoop :
    Nat → ArchipelagoClient →
    Option (Except ArchipelagoError (SetReply × ArchipelagoClient))
  | 0, _ => none
  | fuel + 1, c =>
    match c.recv with
    | .error e => some (.error e)
    | .ok (none, _) => some (.error .ConnectionClosed)
    | .ok (some (.SetReply items), c') => some (.ok (items, c'))
    | .ok (some resp, c') =>
        ArchipelagoClient.setLoop fuel
          { c' with message_buffer := vecPush c'.message_buffer resp }

/-- `client.rs` `ArchipelagoClient::set`. -/
def ArchipelagoClient.set (c : ArchipelagoClient) (key : String)
    (default : Json) (want_reply : Bool)
    (operations : List DataStorageOperation) (fuel : Nat) :
    Option (Except ArchipelagoError (SetReply × ArchipelagoClient)) :=
  ArchipelagoClient.setLoop fuel
    (c.send (.Set { key, default, want_reply, operations }))

/-! ## Death-link bounces (src/src/protocol/bounce.rs) -/

namespace bounce

/-- `bounce.rs` `DeathLink`.  `SystemTime` crosses the wire through
`TimestampSeconds<i64>`, so the model carries the signed 64-bit second count
directly. -/
structure DeathLink where
  time : Int
  cause : Option String
  source : String

inductive BounceData where
  | DeathLink (event : DeathLink)
  | Generic (value : Json)

/-- `bounce.rs` `Bounce` (the outbound envelope; note `slots` holds names). -/
structure Bounce where
  games : Option (List String)
  slots : Option (List String)
  tags : List String
  data : BounceData

/-- `bounce.rs` `Bounced` (the inbound envelope; note `slots` holds ids). -/
structure Bounced where
  games : Option (List String)
  slots : Option (List Int)
  tags : List String
  data : BounceData

/-- `bounce.rs` `InternalBounced`, the intermediate generic decode. -/
structure InternalBounced where
  games : Option (List String)
  slots : Option (List Int)
  tags : List String
  data : Json

def strListJson (l : List String) : Json :=
  .arr (l.map .str)

/-- Serialization of `DeathLink` (derived `Serialize`; `cause : Option` is
written as `null` when absent since it carries no skip attribute). -/
def DeathLink.serialize (d : DeathLink) : Json :=
  .obj [("time", .num (d.time : Rat)),
        ("cause", match d.cause with | some c => .str c | none => .null),
        ("source", .str d.source)]

/-- `bounce.rs` `impl Serialize for Bounce`: skips absent `games`/`slots`,
forces the `"DeathLink"` tag onto a death-link payload, and omits an empty
tag list only for generic payloads. -/
def Bounce.serialize (b : Bounce) : Json :=
  .obj ((match b.games with
         | some games => [("games", strListJson games)]
         | none => []) ++
        (match b.slots with
         | some slots => [("slots", strListJson slots)]
         | none => []) ++
        (match b.data with
         | .DeathLink death_link =>
             let tags := if b.tags.any (fun t => t == "DeathLink") then b.tags
                         else b.tags ++ ["DeathLink"]
             [("tags", strListJson tags), ("data", DeathLink.serialize death_link)]
         | .Generic value =>
             (if b.tags.length > 0 then [("tags", strListJson b.tags)] else []) ++
             [("data", value)]))

def decodeDeathLink (j : Json) : Dec DeathLink := do
  let fields ← asObj j
  let time ← asI64 (← reqField fields "time")
  let cause ← decodeOptField fields "cause" asStr
  let source ← asStr (← reqField fields "source")
  pure { time, cause, source }

def decodeInternalBounced (j : Json) : Dec InternalBounced := do
  let fields ← asObj j
  let games ← decodeOptField fields "games" (decodeList asStr)
  let slots ← decodeOptField fields "slots" (decodeList asI64)
  let tags ← decodeDefaultField fields "tags" (decodeList asStr) []
  let data ← reqField fields "data"
  pure { games, slots, tags, data }

/-- `bounce.rs` `impl Deserialize for Bounced`: decode the generic envelope,
then re-decode the payload as a `DeathLink` exactly when the tag set contains
`"DeathLink"`. -/
def Bounced.deserialize (j : Json) : Dec Bounced := do
  let internal ← decodeInternalBounced j
  if internal.tags.any (fun t => t == "DeathLink") then
    match decodeDeathLink internal.data with
    | .ok data =>
        pure { games := internal.games, slots := internal.slots,
               tags := internal.tags, data := .DeathLink data }
    | .error err => .error err
  else
    pure { games := internal.games, slots := internal.slots,
           tags := internal.tags, data := .Generic internal.data }

end bounce

/-! ## Data-package inverse indexes

`GameData.item_id_to_name` / `location_id_to_name` are not implemented under
src/ — only their caller `RichMessagePart::add_name` is — so they are
modelled from the spec (§4.3 of spec.md): the inverse of the forename map is
computed on first call, memoized in the instance, and returned unchanged on
every later call.  Interior mutability becomes explicit state passing: each
accessor returns the table together with the updated instance. -/

/-- The pure inversion of a forename map: swap every (name, id) pair. -/
def invertMap (m : List (String × Int)) : List (Int × String) :=
  m.map (fun p => (p.2, p.1))

/-- Modelled from the spec: `GameData::item_id_to_name`, the lazily derived,
memoized id-to-name index over `item_name_to_id` (absent from src/). -/
def GameData.item_id_to_name (g : GameData) :
    List (Int × String) × GameData :=
  match g.item_id_to_name_cache with
  | some table => (table, g)
  | none =>
      let table := invertMap g.item_name_to_id
      (table, { g with item_id_to_name_cache := some table })

/-- Modelled from the spec: `GameData::location_id_to_name`, the lazily
derived, memoized id-to-name index over `location_name_to_id` (absent from
src/). -/
def GameData.location_id_to_name (g : GameData) :
    List (Int × String) × GameData :=
  match g.location_id_to_name_cache with
  | some table => (table, g)
  | none =>
      let table := invertMap g.location_name_to_id
      (table, { g with location_id_to_name_cache := some table })

/-! ## Items-handling flags (src/src/protocol.rs lines 190-204) -/

/-- `protocol.rs` `ItemsHandlingFlags`: a `u8` bit set. -/
structure ItemsHandlingFlags where
  bits : Nat

/-- Items are sent from other worlds. -/
def ItemsHandlingFlags.OTHER_WORLDS : ItemsHandlingFlags := ⟨0b001⟩

/-- Items are sent from your own world (includes the other-worlds bit). -/
def ItemsHandlingFlags.OWN_WORLD : ItemsHandlingFlags := ⟨0b011⟩

/-- Items are sent from your starting inventory (includes the other-worlds
bit). -/
def ItemsHandlingFlags.STARTING_INVENTORY : ItemsHandlingFlags := ⟨0b101⟩

/-- bitflags `contains`: all bits of `other` are set in `self`. -/
def ItemsHandlingFlags.contains (self other : ItemsHandlingFlags) : Bool :=
  self.bits &&& other.bits == other.bits

/-! ## Concrete scenario values -/

/-- A concrete `NetworkVersion`. -/
def v0 : NetworkVersion :=
  { major := 0, minor := 0, build := 0, «class» := "Version" }

/-- A concrete `RoomInfo` for building session states directly. -/
def r0 : RoomInfo :=
  { version := v0, generator_version := v0, tags := [],
    password_required := false, permissions := [], hint_cost := 0,
    location_check_points := 0, games := [], datapackage_versions := [],
    datapackage_checksums := [], seed_name := "s", time := 0 }

/-- Wire form of a `Print` message. -/
def printJson (t : String) : Json :=
  .obj [("cmd", .str "Print"), ("text", .str t)]

/-- Wire form of an empty `ReceivedItems` reply. -/
def receivedItemsJson : Json :=
  .obj [("cmd", .str "ReceivedItems"), ("index", .num 0), ("items", .arr [])]

/-- Wire form of an empty `LocationInfo` reply. -/
def locationInfoJson : Json :=
  .obj [("cmd", .str "LocationInfo"), ("locations", .arr [])]

/-- Wire form of a `Retrieved` reply. -/
def retrievedJson : Json :=
  .obj [("cmd", .str "Retrieved"), ("keys", .null)]

/-- Wire form of a `SetReply` reply. -/
def setReplyJson : Json :=
  .obj [("cmd", .str "SetReply"), ("key", .str "k"), ("value", .null)]

/-- Wire form of `v0` (the `class` field is left to its serde default). -/
def versionJson : Json :=
  .obj [("major", .num 0), ("minor", .num 0), ("build", .num 0)]

/-- Wire form of `r0` as a `RoomInfo` message. -/
def roomInfoJson : Json :=
  .obj [("cmd", .str "RoomInfo"), ("version", versionJson),
        ("generator_version", versionJson), ("tags", .arr []),
        ("password", .bool false), ("permissions", .obj []),
        ("hint_cost", .num 0), ("location_check_points", .num 0),
        ("games", .arr []), ("seed_name", .str "s"), ("time", .num 0)]

/-- Wire form of a minimal `Connected` acceptance. -/
def connectedJson : Json :=
  .obj [("cmd", .str "Connected"), ("team", .num 0), ("slot", .num 1),
        ("players", .arr []), ("missing_locations", .arr []),
        ("checked_locations", .arr []), ("slot_data", .null),
        ("slot_info", .obj []), ("hint_points", .num 0)]

/-- The `Connected` value that `connectedJson` decodes to. -/
def conn0 : Connected :=
  { team := 0, slot := 1, players := [], missing_locations := [],
    checked_locations := [], slot_data := .null, slot_info := [],
    hint_points := 0 }

/-- A session state over the given inbound stream, as produced by a connect
whose RoomInfo frame carried nothing else. -/
def mkClient (ws : WsStream) : ArchipelagoClient :=
  { ws, room_info := r0, message_buffer := [], data_package := none,
    sent := [] }

/-- Session whose reply stream is one unrelated message followed by the
matching `ReceivedItems` reply, in a single frame. -/
def c1SyncClient : ArchipelagoClient :=
  mkClient [.ok (.Text (.arr [printJson "unrelated", receivedItemsJson]))]

/-- Session whose reply stream is one unrelated message followed by the
matching `LocationInfo` reply. -/
def c1ScoutClient : ArchipelagoClient :=
  mkClient [.ok (.Text (.arr [printJson "unrelated", locationInfoJson]))]

/-- Session whose reply stream is one unrelated message followed by the
matching `Retrieved` reply. -/
def c1GetClient : ArchipelagoClient :=
  mkClient [.ok (.Text (.arr [printJson "unrelated", retrievedJson]))]

/-- Session whose reply stream is one unrelated message followed by the
matching `SetReply` reply. -/
def c1SetClient : ArchipelagoClient :=
  mkClient [.ok (.Text (.arr [printJson "unrelated", setReplyJson]))]

/-- A connect-time frame carrying `RoomInfo` plus two further messages. -/
def c2Stream : WsStream :=
  [.ok (.Text (.arr [roomInfoJson, printJson "a", printJson "b"]))]

/-- Session whose stream delivers one unrelated message and then the
`Connected` acceptance, in separate frames. -/
def c3Client : ArchipelagoClient :=
  mkClient [.ok (.Text (printJson "unrelated")), .ok (.Text connectedJson)]

/-- Session whose stream starts with a ping frame while a message is still
pending behind it. -/
def c4Client : ArchipelagoClient :=
  mkClient [.ok .Ping, .ok (.Text (printJson "pending"))]

/-- A stream whose first frame is a ping and whose first message is not
`RoomInfo`. -/
def c5Stream : WsStream :=
  [.ok .Ping, .ok (.Text (printJson "x"))]

/-- A death-link `Bounce` whose `slots` field carries a (string) slot name. -/
def c6Bounce : bounce.Bounce :=
  { games := none, slots := some ["alice"], tags := [],
    data := .DeathLink { time := 0, cause := none, source := "player" } }

/-- The session state `newFromWs` builds from `c2Stream`: the two leftover
messages are stored in server-send order (not reversed). -/
def c2Client : ArchipelagoClient :=
  { ws := [], room_info := r0,
    message_buffer := [.Print { text := "a" }, .Print { text := "b" }],
    data_package := none, sent := [] }

/-- The state `sync` reaches after one iteration on `c1SyncClient`: the
matching reply sits first in the buffer, the unrelated message last — and
the loop keeps popping and re-pushing that last slot. -/
def cSyncStuck : ArchipelagoClient :=
  { ws := [], room_info := r0,
    message_buffer := [.ReceivedItems { index := 0, items := [] },
                       .Print { text := "unrelated" }],
    data_package := none, sent := [.Sync] }

/-- The state `location_scouts` reaches after one iteration on
`c1ScoutClient`. -/
def cScoutStuck : ArchipelagoClient :=
  { ws := [], room_info := r0,
    message_buffer := [.LocationInfo { locations := [] },
                       .Print { text := "unrelated" }],
    data_package := none,
    sent := [.LocationScouts { locations := [1], create_as_hint := 0 }] }

/-- The state `get` reaches after one iteration on `c1GetClient`. -/
def cGetStuck : ArchipelagoClient :=
  { ws := [], room_info := r0,
    message_buffer := [.Retrieved { keys := .null },
                       .Print { text := "unrelated" }],
    data_package := none, sent := [.Get { keys := ["k"] }] }

/-- The state `set` reaches after one iteration on `c1SetClient`. -/
def cSetStuck : ArchipelagoClient :=
  { ws := [], room_info := r0,
    message_buffer := [.SetReply { key := "k", value := .null,
                                   original_value := none },
                       .Print { text := "unrelated" }],
    data_package := none,
    sent := [.Set { key := "k", default := .null, want_reply := true,
                    operations := [] }] }

/-- A concrete `GameData` with fresh caches and duplicate-free ids. -/
def g0 : GameData :=
  { item_name_to_id := [("Sword", 42), ("Shield", 43)],
    location_name_to_id := [("Cave", 7)], checksum := "c" }

/-! ## Helper lemmas -/

theorem lookup_invertMap (m : List (String × Int))
    (hnodup : (m.map Prod.snd).Nodup) (name : String) (id : Int) :
    List.lookup id (invertMap m) = some name ↔ (name, id) ∈ m := by
  induction m with
  | nil => simp [invertMap]
  | cons hd tl ih =>
    rw [List.map_cons, List.nodup_cons] at hnodup
    obtain ⟨hhd, htl⟩ := hnodup
    rcases hd with ⟨n₀, i₀⟩
    by_cases hid : id = i₀
    · subst hid
      simp only [invertMap, List.map_cons, List.lookup, beq_self_eq_true]
      constructor
      · intro h
        simp only [Option.some.injEq] at h
        simp [h]
      · intro h
        rcases List.mem_cons.mp h with h | h
        · simp [Prod.ext_iff] at h
          simp [h]
        · exact absurd (List.mem_map_of_mem Prod.snd h) hhd
    · have hbeq : (id == i₀) = false := beq_false_of_ne hid
      simp only [invertMap, List.map_cons, List.lookup, hbeq] at ih ⊢
      rw [ih htl]
      constructor
      · intro h; exact List.mem_cons_of_mem _ h
      · intro h
        rcases List.mem_cons.mp h with h | h
        · exact absurd (congrArg Prod.snd h) hid
        · exact h

theorem decodeElems_str_map (l : List String) :
    decodeElems asStr (l.map .str) = .ok l := by
  induction l with
  | nil => rfl
  | cons hd tl ih =>
    simp only [List.map_cons, decodeElems]
    simp [asStr, ih]
    rfl

theorem decodeElems_str_map_append (l : List String) (s : String) :
    decodeElems asStr (l.map .str ++ [.str s]) = .ok (l ++ [s]) := by
  induction l with
  | nil => rfl
  | cons hd tl ih =>
    simp only [List.map_cons, List.cons_append, decodeElems]
    simp [asStr, ih]
    rfl

/-- One `recv` step on an empty buffer and a decodable text frame: the first
decoded message is returned and the rest is stored reversed. -/
theorem recv_text_frame (c : ArchipelagoClient) {payload : Json}
    {ws' : WsStream} {m : ServerMessage} {rest : List ServerMessage}
    (hbuf : c.message_buffer = []) (hws : c.ws = .ok (.Text payload) :: ws')
    (hdec : decodeMaybeArray payload = .ok (m :: rest)) :
    c.recv = .ok (some m, { c with ws := ws', message_buffer := rest.reverse }) := by
  unfold ArchipelagoClient.recv recv_messages
  rw [hbuf, hws]
  simp [vecPop, hdec, Except.mapError, List.getLast?_concat, List.dropLast_concat]

/-! ## Claim C10 -/

/-- Claim C10: the `items_handling` flag constants compose monotonically —
`OWN_WORLD` and `STARTING_INVENTORY` each contain the `OTHER_WORLDS` bit,
while `OTHER_WORLDS` alone contains neither the `OWN_WORLD` flag nor its
distinguishing own-world bit. -/
theorem c10_items_handling_monotonic :
    ItemsHandlingFlags.OWN_WORLD.contains ItemsHandlingFlags.OTHER_WORLDS = true ∧
    ItemsHandlingFlags.STARTING_INVENTORY.contains ItemsHandlingFlags.OTHER_WORLDS = true ∧
    ItemsHandlingFlags.OTHER_WORLDS.contains ItemsHandlingFlags.OWN_WORLD = false ∧
    ItemsHandlingFlags.OTHER_WORLDS.bits &&&
      (ItemsHandlingFlags.OWN_WORLD.bits ^^^ ItemsHandlingFlags.OTHER_WORLDS.bits) = 0 := by
  decide

/-! ## Claim C7 -/

/-- Claim C7: `connect` tries `wss://` first; it retries over `ws://` at the
same address exactly when the secure attempt failed with a TLS-layer error,
and surfaces the outcome of the retry, while every non-TLS failure of the
secure attempt surfaces immediately with no second attempt. -/
theorem c7_tls_downgrade (net : String → Except TungsteniteError WsStream)
    (url : String) :
    (∀ ws, net ("wss://" ++ url) = .ok ws →
        transportHandshake net url = (.ok ws, ["wss://" ++ url])) ∧
    (∀ msg, net ("wss://" ++ url) = .error (.Tls msg) →
        transportHandshake net url =
          (net ("ws://" ++ url), ["wss://" ++ url, "ws://" ++ url])) ∧
    (∀ kind msg, net ("wss://" ++ url) = .error (.other kind msg) →
        transportHandshake net url = (.error (.other kind msg), ["wss://" ++ url])) ∧
    (∀ msg e, net ("wss://" ++ url) = .error (.Tls msg) →
        net ("ws://" ++ url) = .error e →
        ArchipelagoClient.new net url = .error (.NetworkError e)) := by
  refine ⟨?_, ?_, ?_, ?_⟩
  · intro ws h
    unfold transportHandshake
    rw [h]
  · intro msg h
    unfold transportHandshake
    rw [h]
  · intro kind msg h
    unfold transportHandshake
    rw [h]
  · intro msg e h1 h2
    unfold ArchipelagoClient.new transportHandshake
    rw [h1, h2]

/-- Claim C7 witness: a concrete network whose secure handshake fails with a
TLS error and whose plaintext attempt fails too. -/
theorem c7_witness :
    (fun u => if u = "wss://example" then
        (.error (.Tls "handshake") : Except TungsteniteError WsStream)
      else .error (.other "Io" "refused")) "wss://example" = .error (.Tls "handshake") ∧
    ArchipelagoClient.new
      (fun u => if u = "wss://example" then
        (.error (.Tls "handshake") : Except TungsteniteError WsStream)
      else .error (.other "Io" "refused")) "example" =
      .error (.NetworkError (.other "Io" "refused")) := by
  refine ⟨rfl, ?_⟩
  exact (c7_tls_downgrade _ "example").2.2.2 "handshake" (.other "Io" "refused")
    rfl rfl

/-! ## Claim C9 -/

/-- Claim C9: for a `GameData` with fresh caches whose forename maps contain
no duplicate ids, `item_id_to_name` (resp. `location_id_to_name`) maps id to
name for exactly the entries of the forward map; a second call returns an
equal table, and neither call modifies the forward maps. -/
theorem c9_inverse_index (g : GameData)
    (hfresh_i : g.item_id_to_name_cache = none)
    (hfresh_l : g.location_id_to_name_cache = none)
    (hnodup_i : (g.item_name_to_id.map Prod.snd).Nodup)
    (hnodup_l : (g.location_name_to_id.map Prod.snd).Nodup) :
    (∀ name id, List.lookup id (g.item_id_to_name).1 = some name ↔
        (name, id) ∈ g.item_name_to_id) ∧
    (∀ name id, List.lookup id (g.location_id_to_name).1 = some name ↔
        (name, id) ∈ g.location_name_to_id) ∧
    ((g.item_id_to_name).2.item_id_to_name).1 = (g.item_id_to_name).1 ∧
    ((g.location_id_to_name).2.location_id_to_name).1 = (g.location_id_to_name).1 ∧
    ((g.item_id_to_name).2.item_name_to_id = g.item_name_to_id ∧
      (g.item_id_to_name).2.location_name_to_id = g.location_name_to_id) ∧
    ((g.location_id_to_name).2.item_name_to_id = g.item_name_to_id ∧
      (g.location_id_to_name).2.location_name_to_id = g.location_name_to_id) := by
  refine ⟨?_, ?_, ?_, ?_, ⟨?_, ?_⟩, ⟨?_, ?_⟩⟩ <;>
    simp [GameData.item_id_to_name, GameData.location_id_to_name, hfresh_i, hfresh_l]
  · intro name id
    exact lookup_invertMap g.item_name_to_id hnodup_i name id
  · intro name id
    exact lookup_invertMap g.location_name_to_id hnodup_l name id

/-- Claim C9 witness: a concrete `GameData` with duplicate-free forward
maps. -/
theorem c9_witness :
    ((g0.item_name_to_id.map Prod.snd).Nodup ∧
      (g0.location_name_to_id.map Prod.snd).Nodup) ∧
    (List.lookup 42 (g0.item_id_to_name).1 = some "Sword" ↔
      ("Sword", (42 : Int)) ∈ g0.item_name_to_id) :=
  ⟨⟨by decide, by decide⟩,
    (c9_inverse_index g0 rfl rfl (by decide) (by decide)).1 "Sword" 42⟩

theorem dec_bind_ok (a : α) (f : α → Dec β) : (.ok a : Dec α) >>= f = f a := rfl

theorem dec_bind_error (e : String) (f : α → Dec β) :
    (.error e : Dec α) >>= f = .error e := rfl

theorem dec_map_ok (f : α → β) (a : α) :
    Except.map f (.ok a : Dec α) = .ok (f a) := rfl

theorem dec_pure (a : α) : (pure a : Dec α) = .ok a := rfl

/-- The tag list that `Bounce::serialize` writes for a death-link payload
always contains `"DeathLink"`. -/
theorem deathlink_mem_of_any (tags : List String)
    (h : tags.any (fun t => t == "DeathLink") = true) :
    "DeathLink" ∈ tags := by
  obtain ⟨x, hx, hbeq⟩ := List.any_eq_true.mp h
  rwa [show x = "DeathLink" from eq_of_beq hbeq] at hx

/-- A serialized `DeathLink` decodes back to itself (given the i64 bound its
Rust `time` field carries by type). -/
theorem decodeDeathLink_serialize (d : bounce.DeathLink)
    (h1 : -(2 ^ 63) ≤ d.time) (h2 : d.time < 2 ^ 63) :
    bounce.decodeDeathLink (bounce.DeathLink.serialize d) = .ok d := by
  obtain ⟨time, cause, source⟩ := d
  replace h1 : -(2 ^ 63) ≤ time := h1
  replace h2 : time < 2 ^ 63 := h2
  have hi : asI64 (.num (time : Rat)) = .ok time := by
    show (if (time : Rat).den = 1 then
            if -(2 ^ 63) ≤ (time : Rat).num ∧ (time : Rat).num < 2 ^ 63 then
              Except.ok (time : Rat).num
            else .error "number out of range of i64"
          else .error "invalid type: expected an integer") = .ok time
    rw [Rat.num_intCast, if_pos (Rat.den_intCast time), if_pos ⟨h1, h2⟩]
  unfold bounce.DeathLink.serialize bounce.decodeDeathLink
  cases cause <;>
    simp [asObj, reqField, getField, decodeOptField, asStr, hi, dec_bind_ok,
      dec_pure, dec_map_ok]

/-! ## Claim C6 -/

/-- Claim C6 counterexample: a death-link `Bounce` carrying a slot name
serializes fine, but deserializing its own wire form as `Bounced` fails —
`Bounce.slots` holds strings while `Bounced.slots` expects integers — so the
round trip does not yield a DeathLink-typed payload for every such
`Bounce`. -/
theorem c6_counterexample :
    bounce.Bounced.deserialize (bounce.Bounce.serialize c6Bounce) =
      .error "invalid type: expected an integer" := rfl

/-- Claim C6 (amended): for every `Bounce` with a DeathLink payload whose
`slots` field is absent (present slot-name lists cannot round-trip since
`Bounced.slots` expects ids), the wire form carries the `"DeathLink"` tag —
added when the caller did not supply it — and deserializing it as `Bounced`
yields the same DeathLink-typed payload, not a generic one. -/
theorem c6_deathlink_roundtrip (b : bounce.Bounce) (d : bounce.DeathLink)
    (hdl : b.data = .DeathLink d) (hslots : b.slots = none)
    (h1 : -(2 ^ 63) ≤ d.time) (h2 : d.time < 2 ^ 63) :
    (∃ fields tags, bounce.Bounce.serialize b = .obj fields ∧
        getField fields "tags" = some (bounce.strListJson tags) ∧
        "DeathLink" ∈ tags) ∧
    bounce.Bounced.deserialize (bounce.Bounce.serialize b) =
      .ok { games := b.games, slots := none,
            tags := if b.tags.any (fun t => t == "DeathLink") then b.tags
                    else b.tags ++ ["DeathLink"],
            data := .DeathLink d } := by
  rcases hg : b.games with _ | gs <;>
    by_cases htag : b.tags.any (fun t => t == "DeathLink") = true
  · have hser : bounce.Bounce.serialize b =
        .obj [("tags", bounce.strListJson b.tags),
              ("data", bounce.DeathLink.serialize d)] := by
      unfold bounce.Bounce.serialize
      rw [hg, hslots, hdl, if_pos htag]
      rfl
    refine ⟨⟨_, b.tags, hser, rfl, deathlink_mem_of_any b.tags htag⟩, ?_⟩
    rw [hser]
    have hmemb := deathlink_mem_of_any b.tags htag
    unfold bounce.Bounced.deserialize bounce.decodeInternalBounced
    simp [asObj, decodeOptField, decodeDefaultField, reqField, getField,
      bounce.strListJson, decodeList, decodeElems_str_map,
      decodeElems_str_map_append, dec_bind_ok,
      dec_pure, dec_map_ok, htag, hg, hmemb,
      decodeDeathLink_serialize d h1 h2]
  · have hser : bounce.Bounce.serialize b =
        .obj [("tags", bounce.strListJson (b.tags ++ ["DeathLink"])),
              ("data", bounce.DeathLink.serialize d)] := by
      unfold bounce.Bounce.serialize
      rw [hg, hslots, hdl, if_neg htag]
      rfl
    refine ⟨⟨_, b.tags ++ ["DeathLink"], hser, rfl,
      List.mem_append_right _ (List.mem_singleton.mpr rfl)⟩, ?_⟩
    rw [hser]
    have hmemb : "DeathLink" ∈ b.tags ++ ["DeathLink"] :=
      List.mem_append_right _ (List.mem_singleton.mpr rfl)
    unfold bounce.Bounced.deserialize bounce.decodeInternalBounced
    simp [asObj, decodeOptField, decodeDefaultField, reqField, getField,
      bounce.strListJson, decodeList, decodeElems_str_map,
      decodeElems_str_map_append, dec_bind_ok,
      dec_pure, dec_map_ok, htag, hg, hmemb,
      decodeDeathLink_serialize d h1 h2]
  · have hser : bounce.Bounce.serialize b =
        .obj [("games", bounce.strListJson gs),
              ("tags", bounce.strListJson b.tags),
              ("data", bounce.DeathLink.serialize d)] := by
      unfold bounce.Bounce.serialize
      rw [hg, hslots, hdl, if_pos htag]
      rfl
    refine ⟨⟨_, b.tags, hser, rfl, deathlink_mem_of_any b.tags htag⟩, ?_⟩
    rw [hser]
    have hmemb := deathlink_mem_of_any b.tags htag
    unfold bounce.Bounced.deserialize bounce.decodeInternalBounced
    simp [asObj, decodeOptField, decodeDefaultField, reqField, getField,
      bounce.strListJson, decodeList, decodeElems_str_map,
      decodeElems_str_map_append, dec_bind_ok,
      dec_pure, dec_map_ok, htag, hg, hmemb,
      decodeDeathLink_serialize d h1 h2]
  · have hser : bounce.Bounce.serialize b =
        .obj [("games", bounce.strListJson gs),
              ("tags", bounce.strListJson (b.tags ++ ["DeathLink"])),
              ("data", bounce.DeathLink.serialize d)] := by
      unfold bounce.Bounce.serialize
      rw [hg, hslots, hdl, if_neg htag]
      rfl
    refine ⟨⟨_, b.tags ++ ["DeathLink"], hser, rfl,
      List.mem_append_right _ (List.mem_singleton.mpr rfl)⟩, ?_⟩
    rw [hser]
    have hmemb : "DeathLink" ∈ b.tags ++ ["DeathLink"] :=
      List.mem_append_right _ (List.mem_singleton.mpr rfl)
    unfold bounce.Bounced.deserialize bounce.decodeInternalBounced
    simp [asObj, decodeOptField, decodeDefaultField, reqField, getField,
      bounce.strListJson, decodeList, decodeElems_str_map,
      decodeElems_str_map_append, dec_bind_ok,
      dec_pure, dec_map_ok, htag, hg, hmemb,
      decodeDeathLink_serialize d h1 h2]

/-- Claim C6 witness: a death-link bounce without a supplied tag and without
slots round-trips, gaining the `"DeathLink"` tag on the wire. -/
theorem c6_witness :
    ((⟨some ["GameA"], none, [], .DeathLink ⟨5, some "fell", "p1"⟩⟩ :
        bounce.Bounce).data = .DeathLink ⟨5, some "fell", "p1"⟩) ∧
    bounce.Bounced.deserialize (bounce.Bounce.serialize
        ⟨some ["GameA"], none, [], .DeathLink ⟨5, some "fell", "p1"⟩⟩) =
      .ok { games := some ["GameA"], slots := none, tags := ["DeathLink"],
            data := .DeathLink ⟨5, some "fell", "p1"⟩ } := by
  refine ⟨rfl, ?_⟩
  have h := (c6_deathlink_roundtrip
    ⟨some ["GameA"], none, [], .DeathLink ⟨5, some "fell", "p1"⟩⟩
    ⟨5, some "fell", "p1"⟩ rfl rfl (by decide) (by decide)).2
  simpa using h

/-! ## Claim C1 -/

/-- Once the unrelated message occupies the pop end of the buffer, the sync
loop keeps popping and re-pushing it and never terminates. -/
theorem syncLoop_stuck (n : Nat) :
    ArchipelagoClient.syncLoop n cSyncStuck = none := by
  induction n with
  | zero => rfl
  | succ n ih =>
    rw [ArchipelagoClient.syncLoop]
    exact ih

/-- The location-scouts loop livelocks on `cScoutStuck`. -/
theorem locationScoutsLoop_stuck (n : Nat) :
    ArchipelagoClient.locationScoutsLoop n cScoutStuck = none := by
  induction n with
  | zero => rfl
  | succ n ih =>
    rw [ArchipelagoClient.locationScoutsLoop]
    exact ih

/-- The get loop livelocks on `cGetStuck`. -/
theorem getLoop_stuck (n : Nat) :
    ArchipelagoClient.getLoop n cGetStuck = none := by
  induction n with
  | zero => rfl
  | succ n ih =>
    rw [ArchipelagoClient.getLoop]
    exact ih

/-- The set loop livelocks on `cSetStuck`. -/
theorem setLoop_stuck (n : Nat) :
    ArchipelagoClient.setLoop n cSetStuck = none := by
  induction n with
  | zero => rfl
  | succ n ih =>
    rw [ArchipelagoClient.setLoop]
    exact ih

/-- Claim C1: on a session whose reply stream delivers one unrelated message
followed by the matching reply, every selective-wait operation pushes the
unrelated message back onto the end of the buffer it pops from, re-reads it
forever, and never returns the matching reply — for any amount of fuel. -/
theorem c1_selective_wait_livelock :
    (∀ fuel, c1SyncClient.sync fuel = none) ∧
    (∀ fuel, c1ScoutClient.location_scouts [1] 0 fuel = none) ∧
    (∀ fuel, c1GetClient.get ["k"] fuel = none) ∧
    (∀ fuel, c1SetClient.set "k" .null true [] fuel = none) := by
  refine ⟨?_, ?_, ?_, ?_⟩
  · intro fuel
    cases fuel with
    | zero => rfl
    | succ n =>
      show ArchipelagoClient.syncLoop (n + 1) (c1SyncClient.send .Sync) = none
      rw [ArchipelagoClient.syncLoop]
      exact syncLoop_stuck n
  · intro fuel
    cases fuel with
    | zero => rfl
    | succ n =>
      show ArchipelagoClient.locationScoutsLoop (n + 1)
        (c1ScoutClient.send (.LocationScouts
          { locations := [1], create_as_hint := 0 })) = none
      rw [ArchipelagoClient.locationScoutsLoop]
      exact locationScoutsLoop_stuck n
  · intro fuel
    cases fuel with
    | zero => rfl
    | succ n =>
      show ArchipelagoClient.getLoop (n + 1)
        (c1GetClient.send (.Get { keys := ["k"] })) = none
      rw [ArchipelagoClient.getLoop]
      exact getLoop_stuck n
  · intro fuel
    cases fuel with
    | zero => rfl
    | succ n =>
      show ArchipelagoClient.setLoop (n + 1)
        (c1SetClient.send (.Set
          { key := "k", default := .null, want_reply := true,
            operations := [] })) = none
      rw [ArchipelagoClient.setLoop]
      exact setLoop_stuck n

/-! ## Claim C2 -/

/-- Claim C2: messages that arrive in the same frame as the connect-time
`RoomInfo` are stored unreversed although `recv` pops from the end, so they
are yielded in reverse server-send order — `b` before `a`. -/
theorem c2_connect_frame_reversed :
    ArchipelagoClient.newFromWs c2Stream = .ok c2Client ∧
    c2Client.recv = .ok (some (.Print { text := "b" }),
      { c2Client with message_buffer := [.Print { text := "a" }] }) ∧
    ({ c2Client with message_buffer := [ServerMessage.Print { text := "a" }] }
        : ArchipelagoClient).recv =
      .ok (some (.Print { text := "a" }),
        { c2Client with message_buffer := [] }) :=
  ⟨rfl, rfl, rfl⟩

/-! ## Claim C3 -/

/-- Claim C3 counterexample: with one unrelated message delivered before the
`Connected` acceptance, `connect` does not wait for the acceptance — it
fails with a protocol violation naming the unrelated message. -/
theorem c3_counterexample :
    c3Client.connect "g" "n" none none [] =
      .error (.IllegalResponse (.Print { text := "unrelated" }) "Connected") := rfl

/-- Claim C3 (amended): `connect` reads exactly one reply after sending the
join request; if the first delivered message is not `Connected`, it fails
with a protocol violation naming that message (no queue-and-continue), and
it returns the acceptance only when `Connected` is first — in which case the
messages behind it in the same frame are queued in the buffer rather than
lost. -/
theorem c3_connect_single_reply (c : ArchipelagoClient) (game name : String)
    (password : Option String) (items_handling : Option Int)
    (tags : List String) :
    (∀ payload ws' m rest, c.message_buffer = [] →
        c.ws = .ok (.Text payload) :: ws' →
        decodeMaybeArray payload = .ok (m :: rest) →
        (∀ x, m ≠ .Connected x) →
        c.connect game name password items_handling tags =
          .error (.IllegalResponse m "Connected")) ∧
    (∀ payload ws' conn rest, c.message_buffer = [] →
        c.ws = .ok (.Text payload) :: ws' →
        decodeMaybeArray payload = .ok (.Connected conn :: rest) →
        ∃ c', c.connect game name password items_handling tags =
            .ok (conn, c') ∧
          c'.message_buffer = rest.reverse ∧ c'.ws = ws') := by
  constructor
  · intro payload ws' m rest hbuf hws hdec hne
    have hr := recv_text_frame
      (c.send (.Connect
        { game := game, name := name, uuid := "", password := password,
          version := network_version, items_handling := items_handling,
          tags := tags, request_slot_data := true })) hbuf hws hdec
    simp only [ArchipelagoClient.connect]
    rw [hr]
    cases m <;> first | exact absurd rfl (hne _) | rfl
  · intro payload ws' conn rest hbuf hws hdec
    have hr := recv_text_frame
      (c.send (.Connect
        { game := game, name := name, uuid := "", password := password,
          version := network_version, items_handling := items_handling,
          tags := tags, request_slot_data := true })) hbuf hws hdec
    simp only [ArchipelagoClient.connect]
    rw [hr]
    exact ⟨_, rfl, rfl, rfl⟩

/-- Claim C3 witness: concrete sessions for both halves of the amended
claim. -/
theorem c3_witness :
    decodeMaybeArray (printJson "unrelated") =
      .ok [.Print { text := "unrelated" }] ∧
    c3Client.connect "g" "n" none none [] =
      .error (.IllegalResponse (.Print { text := "unrelated" }) "Connected") ∧
    (∃ c', (mkClient [.ok (.Text (.arr [connectedJson, printJson "later"]))]).connect
        "g" "n" none none [] = .ok (conn0, c') ∧
        c'.message_buffer = [ServerMessage.Print { text := "later" }].reverse ∧
        c'.ws = []) := by
  refine ⟨rfl, ?_, ?_⟩
  · exact (c3_connect_single_reply c3Client "g" "n" none none []).1
      (printJson "unrelated") [.ok (.Text connectedJson)]
      (.Print { text := "unrelated" }) [] rfl rfl rfl
      (by intro x h; cases h)
  · exact (c3_connect_single_reply _ "g" "n" none none []).2
      (.arr [connectedJson, printJson "later"]) [] conn0
      [.Print { text := "later" }] rfl rfl rfl

/-! ## Claim C4 -/

/-- Claim C4 counterexample: a ping frame makes `recv` return empty while
the transport is still open and a message is still pending behind it. -/
theorem c4_counterexample :
    c4Client.recv = .ok (none, mkClient [.ok (.Text (printJson "pending"))]) ∧
    (mkClient [.ok (.Text (printJson "pending"))]).ws ≠ [] ∧
    (mkClient [.ok (.Text (printJson "pending"))]).recv =
      .ok (some (.Print { text := "pending" }), mkClient []) :=
  ⟨rfl, by simp [mkClient], rfl⟩

/-- Claim C4 (amended): `recv` returns empty exactly when the buffer is
exhausted and the stream is exhausted, or the next frame is a ping or pong
control frame (consumed without yielding a message), or the next frame is an
empty message batch; in every other situation it returns a message or an
error. -/
theorem c4_recv_empty_iff (c : ArchipelagoClient) :
    (∃ c', c.recv = .ok (none, c')) ↔
      (c.message_buffer = [] ∧
        (c.ws = [] ∨
         (∃ rest, c.ws = .ok .Ping :: rest) ∨
         (∃ rest, c.ws = .ok .Pong :: rest) ∨
         (∃ payload rest, c.ws = .ok (.Text payload) :: rest ∧
            decodeMaybeArray payload = .ok []))) := by
  obtain ⟨ws, ri, buf, dp, sent⟩ := c
  cases buf with
  | cons b bs =>
    obtain ⟨a, ha⟩ := Option.isSome_iff_exists.mp
      (List.getLast?_isSome.mpr (List.cons_ne_nil b bs))
    simp [ArchipelagoClient.recv, vecPop, ha]
  | nil =>
    cases ws with
    | nil => simp [ArchipelagoClient.recv, recv_messages, vecPop]
    | cons item rest =>
      cases item with
      | error e => simp [ArchipelagoClient.recv, recv_messages, vecPop]
      | ok f =>
        cases f with
        | Text payload =>
          cases hd : decodeMaybeArray payload with
          | error e =>
            simp [ArchipelagoClient.recv, recv_messages, vecPop, hd,
              Except.mapError]
          | ok msgs =>
            cases msgs with
            | nil =>
              simp [ArchipelagoClient.recv, recv_messages, vecPop, hd,
                Except.mapError]
            | cons m ms =>
              simp [ArchipelagoClient.recv, recv_messages, vecPop, hd,
                Except.mapError, List.getLast?_concat, List.dropLast_concat]
        | Binary n => simp [ArchipelagoClient.recv, recv_messages, vecPop]
        | Ping => simp [ArchipelagoClient.recv, recv_messages, vecPop]
        | Pong => simp [ArchipelagoClient.recv, recv_messages, vecPop]
        | Close => simp [ArchipelagoClient.recv, recv_messages, vecPop]

/-! ## Claim C5 -/

/-- Claim C5 counterexample: a ping arriving before the first message makes
`new` fail with connection-closed, not with a protocol violation naming the
(non-RoomInfo) first message still pending behind the ping. -/
theorem c5_counterexample :
    ArchipelagoClient.newFromWs c5Stream = .error .ConnectionClosed ∧
    decodeMaybeArray (printJson "x") = .ok [.Print { text := "x" }] :=
  ⟨rfl, rfl⟩

/-- Claim C5 (amended): when the first frame delivers messages, `new` fails
with a protocol violation naming the first message unless it is `RoomInfo`;
it fails with connection-closed when the stream is exhausted or starts with
a close frame — and also when the first frame is a ping, a pong, or an empty
message batch. -/
theorem c5_new_first_frame :
    (∀ payload ws' m rest, decodeMaybeArray payload = .ok (m :: rest) →
        (∀ r, m ≠ .RoomInfo r) →
        ArchipelagoClient.newFromWs (.ok (.Text payload) :: ws') =
          .error (.IllegalResponse m "Expected RoomInfo")) ∧
    ArchipelagoClient.newFromWs [] = .error .ConnectionClosed ∧
    (∀ ws', ArchipelagoClient.newFromWs (.ok .Close :: ws') =
        .error .ConnectionClosed) ∧
    (∀ ws', ArchipelagoClient.newFromWs (.ok .Ping :: ws') =
        .error .ConnectionClosed) ∧
    (∀ ws', ArchipelagoClient.newFromWs (.ok .Pong :: ws') =
        .error .ConnectionClosed) ∧
    (∀ payload ws', decodeMaybeArray payload = .ok [] →
        ArchipelagoClient.newFromWs (.ok (.Text payload) :: ws') =
          .error .ConnectionClosed) := by
  refine ⟨?_, rfl, fun ws' => rfl, fun ws' => rfl, fun ws' => rfl, ?_⟩
  · intro payload ws' m rest hdec hne
    simp only [ArchipelagoClient.newFromWs, recv_messages]
    rw [hdec]
    cases m <;> first | exact absurd rfl (hne _) | rfl
  · intro payload ws' hdec
    simp only [ArchipelagoClient.newFromWs, recv_messages]
    rw [hdec]
    rfl

/-- Claim C5 witness: a non-RoomInfo first message and an empty first
batch. -/
theorem c5_witness :
    decodeMaybeArray (printJson "x") = .ok [.Print { text := "x" }] ∧
    ArchipelagoClient.newFromWs [.ok (.Text (printJson "x"))] =
      .error (.IllegalResponse (.Print { text := "x" }) "Expected RoomInfo") ∧
    decodeMaybeArray (.arr []) = .ok [] ∧
    ArchipelagoClient.newFromWs [.ok (.Text (.arr []))] =
      .error .ConnectionClosed := by
  refine ⟨rfl, ?_, rfl, ?_⟩
  · exact c5_new_first_frame.1 (printJson "x") [] (.Print { text := "x" }) []
      rfl (by intro r h; cases h)
  · exact c5_new_first_frame.2.2.2.2.2 (.arr []) [] rfl

/-! ## Claim C8 -/

/-- Claim C8 counterexample: a rich-print message with the unrecognized
discriminator `"Bogus"` does not fail — it silently decodes to the untagged
`Unknown` fallback variant, although it is not a text fragment. -/
theorem c8_counterexample :
    decodePrintJSON (.obj [("type", .str "Bogus"), ("data", .arr [])]) =
      .ok (.Unknown []) := rfl

/-- Claim C8 (amended): an unrecognized `cmd` discriminator fails the
`ServerMessage` decode; an unrecognized `type` on a rich-print message falls
back to the untagged `Unknown` variant (decoding just its `data`), and an
unrecognized `type` on a message part falls back to the plain-text fragment
(requiring a string `text` field); neither fallback silently picks a tagged
variant. -/
theorem c8_unknown_discriminators :
    (∀ fields cmd, getField fields "cmd" = some (.str cmd) →
        cmd ∉ serverMessageCmds →
        decodeServerMessage (.obj fields) =
          .error ("unknown variant " ++ cmd ++ " of enum ServerMessage")) ∧
    (∀ fields tag, getField fields "type" = some (.str tag) →
        tag ∉ printJSONTypes →
        decodePrintJSON (.obj fields) = printJSONFallback fields) ∧
    (∀ fields data ps, getField fields "data" = some data →
        decodeList decodeJSONMessagePart data = .ok ps →
        printJSONFallback fields = .ok (.Unknown ps)) ∧
    (∀ fields tag, getField fields "type" = some (.str tag) →
        tag ∉ jsonMessagePartTypes →
        decodeJSONMessagePart (.obj fields) = jsonMessagePartFallback fields) ∧
    (∀ fields t, getField fields "text" = some (.str t) →
        jsonMessagePartFallback fields = .ok (.Text t)) := by
  refine ⟨?_, ?_, ?_, ?_, ?_⟩
  · intro fields cmd h hm
    simp only [serverMessageCmds, List.mem_cons, List.mem_singleton,
      List.not_mem_nil, not_or] at hm
    obtain ⟨h1, h2, h3, h4, h5, h6, h7, h8, h9, h10, h11, h12, h13, -⟩ := hm
    have hdec : decodeServerMessage (.obj fields) =
        match getField fields "cmd" with
        | some (.str cmd) => decodeServerMessageVariant cmd fields
        | some _ => .error "invalid type for tag cmd"
        | none => .error "missing field cmd" := rfl
    rw [hdec, h]
    show decodeServerMessageVariant cmd fields =
      .error ("unknown variant " ++ cmd ++ " of enum ServerMessage")
    unfold decodeServerMessageVariant
    rw [if_neg h1, if_neg h2, if_neg h3, if_neg h4, if_neg h5, if_neg h6,
      if_neg h7, if_neg h8, if_neg h9, if_neg h10, if_neg h11, if_neg h12,
      if_neg h13]
  · intro fields tag h hm
    simp only [printJSONTypes, List.mem_cons, List.mem_singleton,
      List.not_mem_nil, not_or] at hm
    obtain ⟨h1, h2, h3, h4, h5, h6, h7, h8, h9, h10, h11, h12, h13, h14,
      h15, -⟩ := hm
    have hdec : decodePrintJSON (.obj fields) =
        match getField fields "type" with
        | some (.str tag) => decodePrintJSONVariant tag fields
        | _ => printJSONFallback fields := rfl
    rw [hdec, h]
    show decodePrintJSONVariant tag fields = printJSONFallback fields
    unfold decodePrintJSONVariant
    rw [if_neg h1, if_neg h2, if_neg h3, if_neg h4, if_neg h5, if_neg h6,
      if_neg h7, if_neg h8, if_neg h9, if_neg h10, if_neg h11, if_neg h12,
      if_neg h13, if_neg h14, if_neg h15]
  · intro fields data ps h hdec
    unfold printJSONFallback reqField
    rw [h]
    show (match decodeList decodeJSONMessagePart data with
      | .ok parts => (.ok (.Unknown parts) : Dec PrintJSON)
      | .error _ => .error "data did not match any variant of enum PrintJSON") =
      .ok (.Unknown ps)
    rw [hdec]
  · intro fields tag h hm
    simp only [jsonMessagePartTypes, List.mem_cons, List.mem_singleton,
      List.not_mem_nil, not_or] at hm
    obtain ⟨h1, h2, h3, h4, h5, h6, h7, h8, -⟩ := hm
    have hdec : decodeJSONMessagePart (.obj fields) =
        match getField fields "type" with
        | some (.str tag) => decodeJSONMessagePartVariant tag fields
        | _ => jsonMessagePartFallback fields := rfl
    rw [hdec, h]
    show decodeJSONMessagePartVariant tag fields = jsonMessagePartFallback fields
    unfold decodeJSONMessagePartVariant
    rw [if_neg h1, if_neg h2, if_neg h3, if_neg h4, if_neg h5, if_neg h6,
      if_neg h7, if_neg h8]
  · intro fields t h
    unfold jsonMessagePartFallback
    rw [h]

/-- Claim C8 witness: concrete unknown discriminators at every position. -/
theorem c8_witness :
    ("Frob" ∉ serverMessageCmds ∧ "Frob" ∉ printJSONTypes ∧
      "frob" ∉ jsonMessagePartTypes) ∧
    decodeServerMessage (.obj [("cmd", .str "Frob")]) =
      .error ("unknown variant " ++ "Frob" ++ " of enum ServerMessage") ∧
    decodePrintJSON (.obj [("type", .str "Frob"), ("data", .arr [])]) =
      printJSONFallback [("type", .str "Frob"), ("data", .arr [])] ∧
    printJSONFallback [("type", .str "Frob"), ("data", .arr [])] =
      .ok (.Unknown []) ∧
    decodeJSONMessagePart (.obj [("type", .str "frob"), ("text", .str "hi")]) =
      jsonMessagePartFallback [("type", .str "frob"), ("text", .str "hi")] ∧
    jsonMessagePartFallback [("type", .str "frob"), ("text", .str "hi")] =
      .ok (.Text "hi") :=
  ⟨⟨by decide, by decide, by decide⟩,
    c8_unknown_discriminators.1 _ "Frob" rfl (by decide),
    c8_unknown_discriminators.2.1 _ "Frob" rfl (by decide),
    c8_unknown_discriminators.2.2.1 _ (.arr []) [] rfl rfl,
    c8_unknown_discriminators.2.2.2.1 _ "frob" rfl (by decide),
    c8_unknown_discriminators.2.2.2.2 _ "hi" rfl⟩

end Archipelago
